import Mathlib

/-!
# NST-Plus: verification of the capture/aggregation core

A shallow embedding of the NST-Plus experiment platform's core data
handling, translated from the JavaScript sources:

* `src/backend/src/utils/resultsAggregator.js` — the `ResultsAggregator`
  class (`validateResponse`, `processTrialDetails`, `processCaptureData`,
  `calculateSessionMetrics`, `generateChecksum`, `getFullResults`);
* the `Participant` mongoose model — `addCompletedTask` and the status
  recomputation it performs;
* `src/frontend/components/nst/NSTTask.js` — the capture queue
  (`queueCapture`, `processNextCapture` and the effect that drives it);
* `src/frontend/components/common/DualCameraProvider.js` —
  `createMockPhoto`, `capturePhoto`, `captureBothCameras`, and the
  stream-monitoring / restart logic (`addStreamListeners`,
  `restartCamera`, `startStreamMonitoring`).

The backend state manager (`services/stateManager`, providing
`getFullStateVector` and `getSessionState`) is required by the
aggregator but is not among the sources; the shapes it supplies are
modelled from the specification and are marked as such below.

JavaScript numbers that hold counters, timestamps and byte values are
modelled as `Nat` (with explicit `% 2 ^ 32` where the SHA-256 rounds
wrap); JavaScript `undefined`/`null` results are modelled as `Option`.
-/

namespace NSTPlus

/-! ## Data model for the results aggregator

`resultsAggregator.js` reads a "state vector" from the state manager.
The state manager itself is not among the sources, so the record shapes
below follow the specification's data model. -/

/-- Key-to-parity mapping of a session, e.g. `{odd: 'f', even: 'j'}`.
`responseStyle` is the extra field read by `processTrialDetails`
(`keyMapping?.responseStyle`). -/
structure KeyMapping where
  odd : String
  even : String
  responseStyle : String
deriving DecidableEq

/-- One trial as read by `processTrialDetails`: a digit sequence
(`trial.number`, a string of digit characters) and an effort level. -/
structure Trial where
  number : String
  effortLevel : Nat
deriving DecidableEq

/-- The `experimentState` component of the state vector: the ordered
trial list. -/
structure ExperimentState where
  trials : List Trial
deriving DecidableEq

/-- Modelled from the spec: a recorded response event. The state manager
that builds `responseState` is not among the sources; the specification
describes `responses` as an ordered, append-only sequence of response
events, each referencing a valid trial/position pair and carrying the
pressed key and a timestamp. The field names follow the accesses made
by `processTrialDetails` (`.key`, `.responseType`, `.responseStyle`,
`.timestamp`). -/
structure ResponseEvent where
  trialNumber : Nat
  position : Nat
  key : String
  responseType : String
  responseStyle : String
  timestamp : Nat
deriving DecidableEq

/-- A capture record as read by `processCaptureData`
(`.trialNumber`, `.filepath`, `.timestamp`, `.experimentId`,
`.settings`, `.digitIndex`). -/
structure CaptureEvent where
  trialNumber : Nat
  filepath : String
  timestamp : Nat
  experimentId : String
  settings : String
  digitIndex : Nat
deriving DecidableEq

/-- Modelled from the spec: the state vector returned by the (absent)
state manager's `getFullStateVector` — the reconciled snapshot of a
session's trials, responses and captures, plus session metadata. The
four field names are the ones `resultsAggregator.js` destructures. -/
structure StateVector where
  experimentState : ExperimentState
  responseState : List ResponseEvent
  captureState : List CaptureEvent
  metadata : String
deriving DecidableEq

/-- JS `s || null` for a string field: the empty string is falsy and
collapses to `null`; any other string passes through. -/
def jsOrNullStr (s : String) : Option String :=
  if s = "" then none else some s

/-- JS `n || null` for a numeric field: `0` is falsy and collapses to
`null`. -/
def jsOrNullNat (n : Nat) : Option Nat :=
  if n = 0 then none else some n

/-- Numeric value of a digit character, as JS coerces `'4' % 2`. -/
def digitVal (c : Char) : Nat := c.toNat - 48

/-- Embedding of `ResultsAggregator.validateResponse(digit, key, keyMapping)`:
returns `false` when `key` or `keyMapping` is missing (JS falsy check
`!key || !keyMapping`), otherwise compares the key with the mapping for
the digit's parity. Note that a missing key yields the boolean `false`,
not `null`. -/
def validateResponse (digit : Char) (key : Option String)
    (keyMapping : Option KeyMapping) : Bool :=
  match key, keyMapping with
  | some k, some m =>
    if k = "" then false
    else
      let isOdd : Bool := decide (digitVal digit % 2 ≠ 0)
      (isOdd && decide (k = m.odd)) || (!isOdd && decide (k = m.even))
  | _, _ => false

/-- One entry of the `responses` array built per digit position by
`processTrialDetails`. -/
structure PositionRecord where
  digit : Char
  response : Option String
  responseType : Option String
  responseStyle : Option String
  isCorrect : Bool
  timestamp : Option Nat
  position : Nat
deriving DecidableEq

/-- One entry of the list `processTrialDetails` returns. The source also
computes a `totalCorrect` field by applying `Array.prototype.filter` to
`responseState[index]`; under the spec's shape for `responseState`
(a sequence of response-event objects) that expression has no meaning
(objects have no `filter` method), and no claim refers to it, so the
field is not modelled. -/
structure TrialDetail where
  trialNumber : Nat
  sequence : String
  responses : List PositionRecord
  effortLevel : Nat
deriving DecidableEq

/-- The record the inner arrow function of `processTrialDetails` builds
for digit `digit` at zero-based position `pos` of trial `index`: every
nullable field is read off `responseState[index]` — the entry selected
by the **trial index alone** — with `x || null` falsy collapses. -/
def positionRecordFor (sv : StateVector) (keyMapping : Option KeyMapping)
    (index pos : Nat) (digit : Char) : PositionRecord :=
  let ev := sv.responseState[index]?
  { digit := digit
    response := ev.bind fun e => jsOrNullStr e.key
    responseType := ev.bind fun e => jsOrNullStr e.responseType
    responseStyle :=
      match ev.bind fun e => jsOrNullStr e.responseStyle with
      | some s => some s
      | none => keyMapping.bind fun m => jsOrNullStr m.responseStyle
    isCorrect := validateResponse digit (ev.map fun e => e.key) keyMapping
    timestamp := ev.bind fun e => jsOrNullNat e.timestamp
    position := pos + 1 }

/-- The record the outer arrow function of `processTrialDetails` builds
for the trial at zero-based `index`: one position record per character
of `trial.number` (JS `split('')`). -/
def trialDetailFor (sv : StateVector) (keyMapping : Option KeyMapping)
    (index : Nat) (trial : Trial) : TrialDetail :=
  { trialNumber := index + 1
    sequence := trial.number
    responses := trial.number.data.enum.map fun q =>
      positionRecordFor sv keyMapping index q.1 q.2
    effortLevel := trial.effortLevel }

/-- Embedding of `ResultsAggregator.processTrialDetails(stateVector, keyMapping)`:
maps each trial (with its index) to a detail record. -/
def processTrialDetails (sv : StateVector) (keyMapping : Option KeyMapping) :
    List TrialDetail :=
  sv.experimentState.trials.enum.map fun p =>
    trialDetailFor sv keyMapping p.1 p.2

/-- One entry of the list `processCaptureData` returns (metadata
sub-object flattened into the record). -/
structure CaptureDetail where
  trialNumber : Nat
  filepath : String
  timestamp : Nat
  experimentId : String
  settings : String
  digitIndex : Nat
deriving DecidableEq

/-- Embedding of `ResultsAggregator.processCaptureData(stateVector)`: reshapes each
capture record (`capture.trialNumber || 0` — falsy `0` maps to `0`
either way). -/
def processCaptureData (sv : StateVector) : List CaptureDetail :=
  sv.captureState.map fun c =>
    { trialNumber := c.trialNumber
      filepath := c.filepath
      timestamp := c.timestamp
      experimentId := c.experimentId
      settings := c.settings
      digitIndex := c.digitIndex }

/-- Modelled from the spec: the inner `state` object of the session
record returned by the (absent) state manager's `getSessionState`, with
the fields `calculateSessionMetrics` reads. -/
structure SessionStateInner where
  currentTrial : Nat
  trials : List Trial
  responses : List ResponseEvent
  status : String
deriving DecidableEq

/-- Modelled from the spec: the session record returned by the (absent)
state manager's `getSessionState`, with the fields `getFullResults` and
`calculateSessionMetrics` read. -/
structure Session where
  startTime : Nat
  lastActivity : Nat
  state : SessionStateInner
  keyMapping : Option KeyMapping
  experimentConfig : String
deriving DecidableEq

/-- The record `calculateSessionMetrics` returns. -/
structure SessionMetrics where
  totalTime : Nat
  trialsCompleted : Nat
  totalTrials : Nat
  responseCount : Nat
  lastActivity : Nat
  status : String
deriving DecidableEq

/-- Embedding of `ResultsAggregator.calculateSessionMetrics(session)`: `endTime` is
`Date.now()` at the moment of the call, passed here as `now`. -/
def calculateSessionMetrics (now : Nat) (session : Session) : SessionMetrics :=
  { totalTime := now - session.startTime
    trialsCompleted := session.state.currentTrial
    totalTrials := session.state.trials.length
    responseCount := session.state.responses.length
    lastActivity := session.lastActivity
    status := session.state.status }

/-! ## Canonical JSON encoding and SHA-256

`generateChecksum` runs `JSON.stringify` over an object literal with the
keys `experimentState`, `responseState`, `metadata` (in that insertion
order) and hashes the resulting string with SHA-256 (hex digest).
The encoders below produce that string; field order inside the nested
records follows the record declarations (the state manager that decides
the stored field order is absent from the sources, so this much is
modelled from the spec's data model). None of the strings occurring in
the development need JSON escaping. -/

/-- A JSON string literal (no escaping needed for the values used). -/
def jsonStr (s : String) : String := "\"" ++ s ++ "\""

/-- JSON array from an element encoder. -/
def jsonArr {α : Type} (f : α → String) (xs : List α) : String :=
  "[" ++ String.intercalate "," (xs.map f) ++ "]"

/-- JSON encoding of a trial. -/
def jsonOfTrial (t : Trial) : String :=
  "\x7b\"number\":" ++ jsonStr t.number ++
    ",\"effortLevel\":" ++ toString t.effortLevel ++ "\x7d"

/-- JSON encoding of `experimentState`. -/
def jsonOfExperimentState (es : ExperimentState) : String :=
  "\x7b\"trials\":" ++ jsonArr jsonOfTrial es.trials ++ "\x7d"

/-- JSON encoding of a response event. -/
def jsonOfResponseEvent (e : ResponseEvent) : String :=
  "\x7b\"trialNumber\":" ++ toString e.trialNumber ++
    ",\"position\":" ++ toString e.position ++
    ",\"key\":" ++ jsonStr e.key ++
    ",\"responseType\":" ++ jsonStr e.responseType ++
    ",\"responseStyle\":" ++ jsonStr e.responseStyle ++
    ",\"timestamp\":" ++ toString e.timestamp ++ "\x7d"

/-- The exact string `generateChecksum` feeds to the hash:
`JSON.stringify({experimentState, responseState, metadata})`. The
`captureState` component of the state vector does not occur in it. -/
def checksumDataString (sv : StateVector) : String :=
  "\x7b\"experimentState\":" ++ jsonOfExperimentState sv.experimentState ++
    ",\"responseState\":" ++ jsonArr jsonOfResponseEvent sv.responseState ++
    ",\"metadata\":" ++ jsonStr sv.metadata ++ "\x7d"

namespace Sha256

/-- The word modulus of SHA-256 (2^32). -/
def m32 : Nat := 4294967296

/-- Right rotation of a 32-bit word. -/
def rotr (n x : Nat) : Nat :=
  ((x >>> n) ||| (x <<< (32 - n))) % m32

/-- Message-schedule function σ₀. -/
def ssig0 (x : Nat) : Nat := (rotr 7 x) ^^^ (rotr 18 x) ^^^ (x >>> 3)

/-- Message-schedule function σ₁. -/
def ssig1 (x : Nat) : Nat := (rotr 17 x) ^^^ (rotr 19 x) ^^^ (x >>> 10)

/-- Round function Σ₀. -/
def bsig0 (x : Nat) : Nat := (rotr 2 x) ^^^ (rotr 13 x) ^^^ (rotr 22 x)

/-- Round function Σ₁. -/
def bsig1 (x : Nat) : Nat := (rotr 6 x) ^^^ (rotr 11 x) ^^^ (rotr 25 x)

/-- The 64 SHA-256 round constants of FIPS 180-4 (decimal). -/
def roundConsts : List Nat :=
  [1116352408, 1899447441, 3049323471,
   3921009573, 961987163, 1508970993,
   2453635748, 2870763221, 3624381080,
   310598401, 607225278, 1426881987,
   1925078388, 2162078206, 2614888103,
   3248222580, 3835390401, 4022224774,
   264347078, 604807628, 770255983,
   1249150122, 1555081692, 1996064986,
   2554220882, 2821834349, 2952996808,
   3210313671, 3336571891, 3584528711,
   113926993, 338241895, 666307205,
   773529912, 1294757372, 1396182291,
   1695183700, 1986661051, 2177026350,
   2456956037, 2730485921, 2820302411,
   3259730800, 3345764771, 3516065817,
   3600352804, 4094571909, 275423344,
   430227734, 506948616, 659060556,
   883997877, 958139571, 1322822218,
   1537002063, 1747873779, 1955562222,
   2024104815, 2227730452, 2361852424,
   2428436474, 2756734187, 3204031479,
   3329325298]

/-- Big-endian byte expansion of `n` into `len` bytes. -/
def toBytesBE (len n : Nat) : List Nat :=
  (List.range len).map fun i => (n >>> (8 * (len - 1 - i))) % 256

/-- SHA-256 padding: append `0x80`, zero bytes up to 56 mod 64, then the
bit length in 8 big-endian bytes. -/
def pad (msg : List Nat) : List Nat :=
  let l := msg.length
  let k := (119 - l % 64) % 64
  msg ++ [128] ++ List.replicate k 0 ++ toBytesBE 8 (8 * l)

/-- Group bytes into big-endian 32-bit words (four bytes each). -/
def toWordsBE : List Nat → List Nat
  | a :: b :: c :: d :: rest => (((a * 256 + b) * 256 + c) * 256 + d) :: toWordsBE rest
  | _ => []

/-- Split into 64-byte blocks; the fuel argument (an upper bound on the
number of blocks) keeps the recursion structural. -/
def chunksF : Nat → List Nat → List (List Nat)
  | 0, _ => []
  | _, [] => []
  | fuel + 1, x :: xs => ((x :: xs).take 64) :: chunksF fuel ((x :: xs).drop 64)

/-- Split a byte list into 64-byte blocks. -/
def chunks (l : List Nat) : List (List Nat) := chunksF l.length l

/-- Extend 16 message words to the 64-word schedule. -/
def schedule (w16 : List Nat) : List Nat :=
  (List.range 48).foldl
    (fun ws _ =>
      let n := ws.length
      ws ++ [(ws.getD (n - 16) 0 + ssig0 (ws.getD (n - 15) 0) +
              ws.getD (n - 7) 0 + ssig1 (ws.getD (n - 2) 0)) % m32])
    w16

/-- The eight 32-bit working variables / hash state. -/
structure HashState where
  a : Nat
  b : Nat
  c : Nat
  d : Nat
  e : Nat
  f : Nat
  g : Nat
  h : Nat
deriving DecidableEq

/-- Initial SHA-256 hash value of FIPS 180-4 (decimal). -/
def initHash : HashState :=
  ⟨1779033703, 3144134277, 1013904242, 2773480762,
   1359893119, 2600822924, 528734635, 1541459225⟩

/-- One compression round with round constant `k` and schedule word `w`. -/
def round (st : HashState) (k w : Nat) : HashState :=
  let ch := (st.e &&& st.f) ^^^ ((m32 - 1 - st.e) &&& st.g)
  let maj := (st.a &&& st.b) ^^^ (st.a &&& st.c) ^^^ (st.b &&& st.c)
  let t1 := (st.h + bsig1 st.e + ch + k + w) % m32
  let t2 := (bsig0 st.a + maj) % m32
  ⟨(t1 + t2) % m32, st.a, st.b, st.c, (st.d + t1) % m32, st.e, st.f, st.g⟩

/-- Compress one 64-byte block into the running hash. -/
def processBlock (h0 : HashState) (block : List Nat) : HashState :=
  let ws := schedule (toWordsBE block)
  let st := (roundConsts.zip ws).foldl (fun st p => round st p.1 p.2) h0
  ⟨(h0.a + st.a) % m32, (h0.b + st.b) % m32, (h0.c + st.c) % m32,
   (h0.d + st.d) % m32, (h0.e + st.e) % m32, (h0.f + st.f) % m32,
   (h0.g + st.g) % m32, (h0.h + st.h) % m32⟩

/-- Hex digit character. -/
def hexChar (n : Nat) : Char :=
  if n < 10 then Char.ofNat (48 + n) else Char.ofNat (87 + n)

/-- Lower-case hex of a 32-bit word, eight digits. -/
def toHex8 (w : Nat) : String :=
  String.mk ((List.range 8).map fun i => hexChar ((w >>> (4 * (7 - i))) % 16))

/-- SHA-256 of a byte list, as the lower-case hex digest. -/
def digestHex (msg : List Nat) : String :=
  let final := (chunks (pad msg)).foldl processBlock initHash
  String.join ([final.a, final.b, final.c, final.d,
                final.e, final.f, final.g, final.h].map toHex8)

/-- SHA-256 hex digest of a string (all strings hashed in this
development are ASCII, so code points are the UTF-8 bytes). -/
def ofString (s : String) : String :=
  digestHex (s.data.map Char.toNat)

end Sha256

/-- Embedding of `ResultsAggregator.generateChecksum(stateVector)`: SHA-256 hex digest
of `JSON.stringify({experimentState, responseState, metadata})`. -/
def generateChecksum (sv : StateVector) : String :=
  Sha256.ofString (checksumDataString sv)

/-- The record `getFullResults` resolves with. -/
structure FullResults where
  sessionMetrics : SessionMetrics
  trialDetails : List TrialDetail
  captureData : List CaptureDetail
  experimentConfig : String
  keyMapping : Option KeyMapping
  validationHash : String
deriving DecidableEq

/-- Embedding of `ResultsAggregator.getFullResults(sessionId)`: builds the results
record from the session and state vector the state manager returns for
the id; `now` is the wall clock read by `calculateSessionMetrics`. -/
def getFullResults (now : Nat) (session : Session) (sv : StateVector) :
    FullResults :=
  { sessionMetrics := calculateSessionMetrics now session
    trialDetails := processTrialDetails sv session.keyMapping
    captureData := processCaptureData sv
    experimentConfig := session.experimentConfig
    keyMapping := session.keyMapping
    validationHash := generateChecksum sv }

/-! ## Participant model — `addCompletedTask`

From the `Participant` mongoose schema and its instance method
`addCompletedTask(taskType, metadata)`. -/

/-- One entry of `tasksCompleted`: `{taskType, metadata, completedAt}`
as pushed by `addCompletedTask` (`completedAt: new Date()` is the wall
clock at the call, passed as a parameter). -/
structure TaskCompletion where
  taskType : String
  metadata : String
  completedAt : Nat
deriving DecidableEq

/-- The participant fields `addCompletedTask` reads or writes. -/
structure Participant where
  participantId : String
  tasksCompleted : List TaskCompletion
  status : String
  experimentStartTime : Option Nat
  experimentEndTime : Option Nat
deriving DecidableEq

/-- Embedding of `participant.addCompletedTask(taskType, metadata)`: pushes a new
completion record unconditionally, then recomputes `status` from the
length of `tasksCompleted` (`>= 3` → `'completed'`, `> 0` →
`'in-progress'`); `now` is the wall clock (`new Date()`). -/
def addCompletedTask (p : Participant) (taskType metadata : String)
    (now : Nat) : Participant :=
  let p' := { p with tasksCompleted :=
                p.tasksCompleted ++ [⟨taskType, metadata, now⟩] }
  if p'.tasksCompleted.length ≥ 3 then
    { p' with status := "completed", experimentEndTime := some now }
  else if p'.tasksCompleted.length > 0 then
    { p' with status := "in-progress",
              experimentStartTime := some (p'.experimentStartTime.getD now) }
  else p'

/-- Completion records carried for a given task type. -/
def completionsFor (p : Participant) (taskType : String) :
    List TaskCompletion :=
  p.tasksCompleted.filter fun c => c.taskType = taskType

/-- The distinct task types present in `tasksCompleted`. -/
def distinctTaskTypes (p : Participant) : List String :=
  (p.tasksCompleted.map fun c => c.taskType).dedup

/-! ## The NST capture queue

From `NSTTask.js`: `queueCapture` appends to the `captureQueue` React
state; an effect runs `processNextCapture` whenever
`captureQueue.length > 0 && !isProcessingCaptures`; `processNextCapture`
sets `isProcessingCaptures`, captures and uploads the head item
(`captureQueue[0]`), removes the head (`prev.slice(1)`) whether the
capture/upload succeeded or threw, and clears `isProcessingCaptures` in
the `finally` block. The model is a transition system whose events are
the scheduler's suspension points: an enqueue from the response path,
the effect starting a drain step, and the in-flight capture-and-upload
settling (successfully or with a caught error). -/

/-- The capture context built by `queueCapture`. -/
structure CaptureData where
  participantId : String
  trialNumber : Nat
  digitIndex : Nat
  digit : Char
  response : String
  responseTime : Nat
  timestamp : Nat
deriving DecidableEq

/-- Queue component state, with the observation history needed to state
ordering: `enqueued` records every `queueCapture` call in order, `store`
the uploads that reached the backend in order, `settled` every head item
together with its outcome, and `inFlight` the captures begun but not yet
resolved. -/
structure QueueState where
  captureQueue : List CaptureData
  isProcessingCaptures : Bool
  inFlight : List CaptureData
  store : List CaptureData
  enqueued : List CaptureData
  settled : List (CaptureData × Bool)
deriving DecidableEq

/-- The queue before any event. -/
def initQueueState : QueueState :=
  { captureQueue := [], isProcessingCaptures := false, inFlight := []
    store := [], enqueued := [], settled := [] }

/-- Queue events: `enqueue` is a `queueCapture` call; `startProcess` is
the effect firing `processNextCapture`; `settle ok` is the in-flight
capture-and-upload resolving (`ok = false` both for a failed
`captureBothCameras` and a failed `saveNSTCapture`, which land in the
same `catch`). -/
inductive QueueEvent
  | enqueue (d : CaptureData)
  | startProcess
  | settle (ok : Bool)
deriving DecidableEq

/-- One scheduler step; `none` when the event's guard does not hold
(the effect only calls `processNextCapture` when the queue is non-empty
and no drain step is running; a settle needs an in-flight capture). -/
def queueStep (s : QueueState) : QueueEvent → Option QueueState
  | .enqueue d =>
    some { s with captureQueue := s.captureQueue ++ [d]
                  enqueued := s.enqueued ++ [d] }
  | .startProcess =>
    if s.isProcessingCaptures then none
    else
      match s.captureQueue with
      | [] => none
      | d :: _ =>
        some { s with isProcessingCaptures := true
                      inFlight := s.inFlight ++ [d] }
  | .settle ok =>
    match s.inFlight with
    | [] => none
    | d :: rest =>
      some { s with
        inFlight := rest
        captureQueue := s.captureQueue.drop 1
        store := if ok then s.store ++ [d] else s.store
        settled := s.settled ++ [(d, ok)]
        isProcessingCaptures := false }

/-- Run a sequence of events; events whose guard fails do not occur. -/
def runQueue (s : QueueState) : List QueueEvent → QueueState
  | [] => s
  | e :: es => runQueue ((queueStep s e).getD s) es

/-! ## Dual camera provider — capture paths

From `DualCameraProvider.js`: `createMockPhoto(label)` draws a fixed
pattern with the text `MOCK CAMERA: <label>` and a timestamp onto a
canvas and encodes it; `capturePhoto(videoRef, canvasRef, label)` draws
the current video frame and encodes it, returning `null` when the refs
are missing or drawing throws; `captureBothCameras(mainLabel,
secondLabel)` branches on the enumerated device count and the two
selection strings. A photo is a JPEG blob; the model keeps what was
drawn into it, which is the only thing that distinguishes a mock photo
from a frame grab — the code attaches no flag to the blob. -/

/-- One enumerated video input device. -/
structure Device where
  deviceId : String
  label : String
deriving DecidableEq

/-- What a produced photo blob contains: a grabbed video frame, or the
mock pattern (`MOCK CAMERA: <label>` text plus timestamp) drawn by
`createMockPhoto`. -/
inductive Photo
  | frame (label : String)
  | mockPattern (label : String)
deriving DecidableEq

/-- Embedding of `createMockPhoto(label)`. -/
def createMockPhoto (label : String) : Photo := .mockPattern label

/-- Embedding of `capturePhoto(videoRef, canvasRef, label)`: resolves to a frame blob
or to `null`; `videoOk` abstracts the environment (refs present and the
draw/encode not throwing). -/
def capturePhoto (videoOk : Bool) (label : String) : Option Photo :=
  if videoOk then some (.frame label) else none

/-- The provider state `captureBothCameras` closes over: the enumerated
devices and the two selection strings (`''` when unselected, as in the
source's initial `useState('')`), plus the environment of the two
video elements. -/
structure ProviderState where
  cameras : List Device
  selectedMainCamera : String
  selectedSecondCamera : String
  mainVideoOk : Bool
  secondVideoOk : Bool
deriving DecidableEq

/-- The pair `captureBothCameras` resolves with. -/
structure BothPhotos where
  main : Option Photo
  second : Option Photo
deriving DecidableEq

/-- Embedding of `captureBothCameras(mainLabel, secondLabel)`: zero devices → two
mock photos; exactly one device with a main selection and no second
selection → real main capture plus a mock with label
`<secondLabel>_mock`; otherwise the dual-capture path, one
`capturePhoto` per role. -/
def captureBothCameras (st : ProviderState) (mainLabel secondLabel : String) :
    BothPhotos :=
  if st.cameras.length = 0 then
    { main := some (createMockPhoto mainLabel)
      second := some (createMockPhoto secondLabel) }
  else if st.cameras.length = 1 ∧ st.selectedMainCamera ≠ "" ∧
          st.selectedSecondCamera = "" then
    { main := capturePhoto st.mainVideoOk mainLabel
      second := some (createMockPhoto (secondLabel ++ "_mock")) }
  else
    { main := capturePhoto st.mainVideoOk mainLabel
      second := capturePhoto st.secondVideoOk secondLabel }

/-- A photo is synthetic when it is the `createMockPhoto` pattern rather
than a grabbed frame; this is readable off the blob only through the
`MOCK CAMERA` text drawn into the image. -/
def Photo.isSynthetic : Photo → Bool
  | .mockPattern _ => true
  | .frame _ => false

/-- Number of synthetic artifacts among the two results. -/
def countSynthetic (b : BothPhotos) : Nat :=
  (if (b.main.map Photo.isSynthetic).getD false then 1 else 0) +
    (if (b.second.map Photo.isSynthetic).getD false then 1 else 0)

/-! ## Stream monitoring and restart

From the monitoring variant of `DualCameraProvider.js`:
`addStreamListeners` reacts to a track's `ended` event by clearing the
role's active flag and scheduling `restartCamera` after 1s;
`startStreamMonitoring` polls every 5s and calls `restartCamera` when
the stream ref is present, reports not-alive, and the active flag was
still set (clearing the flag first); `restartCamera` awaits
`startMainCamera` / `startSecondCamera` and, only if that *throws*,
schedules one more start after 5s — but both start functions catch
their own errors internally (dispatching `setCaptureError` for the main
role only, just logging for the second role) and return `null`, so they
never throw. -/

/-- The two camera roles. -/
inductive CameraRole
  | main
  | second
deriving DecidableEq

/-- Per-role monitoring state: whether the stream ref is non-null
(`mainStreamRef.current`), the `mainStreamActive`-style flag, how many
`getUserMedia` start attempts the restart logic has made, and how many
`setCaptureError` failure signals were dispatched. -/
structure CamMonState where
  streamRef : Bool
  streamActive : Bool
  attempts : Nat
  errorsDispatched : Nat
deriving DecidableEq

/-- The state of a live, healthy stream before any failure. -/
def initCamMonState : CamMonState :=
  { streamRef := true, streamActive := true, attempts := 0
    errorsDispatched := 0 }

/-- Embedding of `startMainCamera` / `startSecondCamera` invoked with outcome
`success` drawn from the environment: the existing stream is stopped
and the ref cleared, then `getUserMedia` either yields a fresh live
stream or throws — and the catch inside the function absorbs the
throw, dispatching `setCaptureError` for the main role only and
returning `null`. The `Except` result records whether an exception
escapes to the caller: it never does. -/
def startCameraForRole (role : CameraRole) (success : Bool)
    (s : CamMonState) : Except String CamMonState :=
  if success then
    .ok { s with streamRef := true, streamActive := true
                 attempts := s.attempts + 1 }
  else
    .ok { s with streamRef := false, streamActive := false
                 attempts := s.attempts + 1
                 errorsDispatched :=
                   if role = .main then s.errorsDispatched + 1
                   else s.errorsDispatched }

/-- Embedding of `restartCamera(cameraType)`: one awaited start attempt; the catch
branch (one further attempt after a longer delay) runs only when the
start threw, which `startCameraForRole` never does. `success1` and
`success2` are the environment's outcomes for the two potential
attempts. -/
def restartCamera (role : CameraRole) (success1 success2 : Bool)
    (s : CamMonState) : CamMonState :=
  match startCameraForRole role success1 s with
  | .ok s1 => s1
  | .error _ =>
    match startCameraForRole role success2 s with
    | .ok s2 => s2
    | .error _ => s

/-- Monitoring events for one role: the live track's `ended` event
firing, or a 5s monitor tick observing aliveness `alive`; each carries
the environment's outcomes for the restart attempts it may cause. -/
inductive CamEvent
  | trackEnded (success1 success2 : Bool)
  | monitorTick (alive success1 success2 : Bool)
deriving DecidableEq

/-- One monitoring step. The `ended` listener always clears the active
flag and restarts; the monitor tick only acts when the stream ref is
non-null, restarting on (not alive ∧ flag set) and re-raising the flag
on (alive ∧ flag clear). -/
def camStep (role : CameraRole) (s : CamMonState) : CamEvent → CamMonState
  | .trackEnded s1 s2 => restartCamera role s1 s2 { s with streamActive := false }
  | .monitorTick alive s1 s2 =>
    if s.streamRef then
      if !alive && s.streamActive then
        restartCamera role s1 s2 { s with streamActive := false }
      else if alive && !s.streamActive then
        { s with streamActive := true }
      else s
    else s

/-- Run a sequence of monitoring events. -/
def runCam (role : CameraRole) (s : CamMonState) : List CamEvent → CamMonState
  | [] => s
  | e :: es => runCam role (camStep role s e) es

/-- An event whose restart attempts (if any) all fail: the camera is
persistently gone. -/
def CamEvent.allFail : CamEvent → Bool
  | .trackEnded s1 s2 => !s1 && !s2
  | .monitorTick _ s1 s2 => !s1 && !s2

/-- How many `ended` events a trace contains; a physical track's `ended`
fires once, so a trace with no successful restart has at most one. -/
def countEnded (es : List CamEvent) : Nat :=
  (es.filter fun e =>
    match e with
    | .trackEnded _ _ => true
    | .monitorTick _ _ _ => false).length

/-! ## Theorems -/

/-- The method `addCompletedTask` always appends exactly one record, whatever the
status recomputation does. -/
lemma tasksCompleted_addCompletedTask (p : Participant)
    (taskType metadata : String) (now : Nat) :
    (addCompletedTask p taskType metadata now).tasksCompleted =
      p.tasksCompleted ++ [⟨taskType, metadata, now⟩] := by
  simp only [addCompletedTask]
  split
  · rfl
  · split <;> rfl

/-- A participant before any task completion, as registration creates
one. -/
def freshParticipant : Participant :=
  { participantId := "M-25-1", tasksCompleted := [], status := "registered"
    experimentStartTime := none, experimentEndTime := none }

/-- C2 counterexample: calling `addCompletedTask` twice with taskType
`'nst'` on a freshly registered participant leaves **two** completion
records for `'nst'`, not one — the method pushes unconditionally and
never deduplicates, so it is not idempotent. -/
theorem addCompletedTask_twice_duplicates :
    (completionsFor
      (addCompletedTask
        (addCompletedTask freshParticipant "nst" "meta1" 1000)
        "nst" "meta2" 2000) "nst").length = 2 := by decide

/-- C2 (amended): marking a task complete is not idempotent — each
`addCompletedTask` call appends a fresh completion record, so two calls
with the same taskType add exactly two records for that taskType (each
carrying its own call's metadata). -/
theorem addCompletedTask_adds_two_records (p : Participant)
    (t m1 m2 : String) (n1 n2 : Nat) :
    (completionsFor
      (addCompletedTask (addCompletedTask p t m1 n1) t m2 n2) t).length =
      (completionsFor p t).length + 2 := by
  simp [completionsFor, tasksCompleted_addCompletedTask, List.filter_append]

/-- The status recomputation looks only at the length of
`tasksCompleted` (with the just-pushed record included). -/
lemma status_addCompletedTask (p : Participant)
    (taskType metadata : String) (now : Nat) :
    (addCompletedTask p taskType metadata now).status =
      if p.tasksCompleted.length + 1 ≥ 3 then "completed"
      else "in-progress" := by
  simp only [addCompletedTask]
  split
  · rename_i h
    simp only [List.length_append, List.length_cons, List.length_nil] at h
    rw [if_pos h]
  · rename_i h
    simp only [List.length_append, List.length_cons, List.length_nil] at h
    rw [if_neg h]
    split
    · rfl
    · rename_i h2
      exact absurd (by simp) h2

/-- C3 counterexample: after three `addCompletedTask` calls that all
carry taskType `'nst'`, the session status is `'completed'` although
only one of the three required task types is present — status is a
function of the record count (duplicates included), not of the set of
distinct completed task types. -/
theorem status_not_function_of_distinct_types :
    ((addCompletedTask
      (addCompletedTask
        (addCompletedTask freshParticipant "nst" "m" 1)
        "nst" "m" 2)
      "nst" "m" 3).status = "completed") ∧
    distinctTaskTypes
      (addCompletedTask
        (addCompletedTask
          (addCompletedTask freshParticipant "nst" "m" 1)
          "nst" "m" 2)
        "nst" "m" 3) = ["nst"] := by
  constructor <;> decide

/-- C3 (amended): after an `addCompletedTask` call the session status is
a pure function of the **number** of completion records (duplicates
counted): `'completed'` as soon as three records exist, `'in-progress'`
below that — not of the set of distinct task types. -/
theorem status_pure_function_of_count (p : Participant)
    (taskType metadata : String) (now : Nat) :
    (addCompletedTask p taskType metadata now).status =
      if p.tasksCompleted.length + 1 ≥ 3 then "completed"
      else "in-progress" :=
  status_addCompletedTask p taskType metadata now

/-- C10: `generateChecksum` hashes only `experimentState`,
`responseState` and `metadata`; two state vectors that agree on those
three produce the same checksum whatever their `captureState` holds —
adding or removing a capture never changes the exported checksum. -/
theorem generateChecksum_ignores_captureState (es : ExperimentState)
    (rs : List ResponseEvent) (md : String)
    (cs1 cs2 : List CaptureEvent) :
    generateChecksum ⟨es, rs, cs1, md⟩ = generateChecksum ⟨es, rs, cs2, md⟩ :=
  rfl

/-- A provider state with one enumerated device but a (stale) second
camera selection remembered from an earlier session: `captureBothCameras`
takes the dual-capture path. -/
def oneDeviceStaleSecond : ProviderState :=
  { cameras := [⟨"cam1", "Built-in Camera"⟩]
    selectedMainCamera := "cam1"
    selectedSecondCamera := "cam2"
    mainVideoOk := true
    secondVideoOk := true }

/-- C6 counterexample: with exactly one device present but a second
camera selection set (e.g. restored from `localStorage`), the
single-camera branch's guard `cameras.length === 1 && selectedMainCamera
&& !selectedSecondCamera` fails and the normal dual-capture path runs:
**zero** synthetic artifacts are produced, not exactly one. -/
theorem captureBoth_one_device_no_mock :
    countSynthetic (captureBothCameras oneDeviceStaleSecond "main" "second") = 0 := by
  decide

/-- C6 (amended): with zero devices `captureBothCameras` returns two
mock photos; with exactly one device it returns exactly one mock photo
(for the second role, labelled `<secondLabel>_mock`) only when a main
camera is selected and no second selection is present — otherwise the
dual-capture path runs and nothing is synthetic. The photos carry no
`isSynthetic` field; a mock is recognisable only by the `MOCK CAMERA`
pattern drawn into the image. -/
theorem captureBoth_synthetic_fallback (st : ProviderState)
    (mainLabel secondLabel : String) :
    (st.cameras = [] →
      captureBothCameras st mainLabel secondLabel =
        { main := some (Photo.mockPattern mainLabel)
          second := some (Photo.mockPattern secondLabel) } ∧
      countSynthetic (captureBothCameras st mainLabel secondLabel) = 2) ∧
    (∀ d, st.cameras = [d] → st.selectedMainCamera ≠ "" →
      st.selectedSecondCamera = "" →
      (captureBothCameras st mainLabel secondLabel).second =
        some (Photo.mockPattern (secondLabel ++ "_mock")) ∧
      countSynthetic (captureBothCameras st mainLabel secondLabel) = 1) := by
  constructor
  · intro h
    rw [captureBothCameras, if_pos (by simp [h])]
    exact ⟨rfl, rfl⟩
  · intro d h1 h2 h3
    rw [captureBothCameras, if_neg (by simp [h1]),
      if_pos ⟨by simp [h1], h2, h3⟩]
    refine ⟨rfl, ?_⟩
    cases hv : st.mainVideoOk <;>
      simp [countSynthetic, capturePhoto, hv, createMockPhoto, Photo.isSynthetic]

/-- C6 amended witness: the two branches at concrete states — no
devices at all, and a single device selected as main with the second
role unselected. -/
theorem captureBoth_synthetic_fallback_witness :
    (captureBothCameras
        { cameras := [], selectedMainCamera := "", selectedSecondCamera := ""
          mainVideoOk := false, secondVideoOk := false } "face" "equipment" =
      { main := some (Photo.mockPattern "face")
        second := some (Photo.mockPattern "equipment") } ∧
     countSynthetic
        (captureBothCameras
          { cameras := [], selectedMainCamera := "", selectedSecondCamera := ""
            mainVideoOk := false, secondVideoOk := false } "face" "equipment") = 2) ∧
    ((captureBothCameras
        { cameras := [⟨"cam1", "Built-in Camera"⟩], selectedMainCamera := "cam1"
          selectedSecondCamera := "", mainVideoOk := true, secondVideoOk := false }
        "face" "equipment").second =
      some (Photo.mockPattern ("equipment" ++ "_mock")) ∧
     countSynthetic
        (captureBothCameras
          { cameras := [⟨"cam1", "Built-in Camera"⟩], selectedMainCamera := "cam1"
            selectedSecondCamera := "", mainVideoOk := true, secondVideoOk := false }
          "face" "equipment") = 1) :=
  ⟨(captureBoth_synthetic_fallback _ "face" "equipment").1 rfl,
   (captureBoth_synthetic_fallback _ "face" "equipment").2
     ⟨"cam1", "Built-in Camera"⟩ rfl (by decide) rfl⟩

/-- The key mapping the spec's example uses: odd → `'f'`, even → `'j'`. -/
def nstKeyMapping : KeyMapping :=
  { odd := "f", even := "j", responseStyle := "standard" }

/-- A session with one single-digit trial `"4"` for which no response
event was ever recorded. -/
def svNoResponse : StateVector :=
  { experimentState := { trials := [{ number := "4", effortLevel := 1 }] }
    responseState := []
    captureState := []
    metadata := "session" }

/-- C1 counterexample: for the trial `"4"` with no recorded response,
`processTrialDetails` reports `response = null` but `isCorrect = false`
— the boolean `false` that `validateResponse` returns on a missing key
(`if (!key || !keyMapping) return false`), not `null` as the claim
requires. -/
theorem missing_response_isCorrect_false :
    processTrialDetails svNoResponse (some nstKeyMapping) =
      [{ trialNumber := 1
         sequence := "4"
         responses := [{ digit := '4', response := none, responseType := none
                         responseStyle := some "standard", isCorrect := false
                         timestamp := none, position := 1 }]
         effortLevel := 1 }] := by decide

/-- Looking up trial details by index reduces to looking up the trial. -/
lemma getElem?_processTrialDetails (sv : StateVector)
    (km : Option KeyMapping) (i : Nat) :
    (processTrialDetails sv km)[i]? =
      (sv.experimentState.trials[i]?).map (trialDetailFor sv km i) := by
  rw [processTrialDetails, List.getElem?_map, List.getElem?_enum]
  cases sv.experimentState.trials[i]? <;> rfl

/-- Looking up a position record by index reduces to looking up the
digit character. -/
lemma getElem?_responses_trialDetailFor (sv : StateVector)
    (km : Option KeyMapping) (i : Nat) (trial : Trial) (p : Nat) :
    (trialDetailFor sv km i trial).responses[p]? =
      (trial.number.data[p]?).map (positionRecordFor sv km i p) := by
  rw [trialDetailFor, List.getElem?_map, List.getElem?_enum]
  cases trial.number.data[p]? <;> rfl

/-- The function `validateResponse` yields `false` whenever the key is absent or
empty, for every digit and mapping. -/
lemma validateResponse_no_key (digit : Char) (km : Option KeyMapping) :
    validateResponse digit none km = false ∧
    validateResponse digit (some "") km = false := by
  cases km <;> simp [validateResponse]

/-- C1 (amended): under `keyMapping = {odd: 'f', even: 'j'}` the
correctness value for digit `4` is `true` exactly on the response
`'j'` and the boolean `false` on every other response — including the
case of **no recorded response**, where `processTrialDetails` reports
`response = null` but `isCorrect = false`, not `null`. -/
theorem correctness_for_even_digit :
    (∀ key : Option String,
      validateResponse '4' key (some nstKeyMapping) = decide (key = some "j")) ∧
    (∀ (sv : StateVector) (km : Option KeyMapping) (i p : Nat)
      (td : TrialDetail) (rp : PositionRecord),
      (processTrialDetails sv km)[i]? = some td →
      td.responses[p]? = some rp →
      rp.response = none →
      rp.isCorrect = false) := by
  constructor
  · intro key
    cases key with
    | none => rfl
    | some k =>
      by_cases hk : k = ""
      · subst hk; decide
      · have h4 : digitVal '4' = 4 := rfl
        simp only [validateResponse, h4, nstKeyMapping, hk, if_false]
        simp [hk]
  · intro sv km i p td rp h1 h2 h3
    rw [getElem?_processTrialDetails] at h1
    obtain ⟨trial, htr, rfl⟩ := Option.map_eq_some'.1 h1
    rw [getElem?_responses_trialDetailFor] at h2
    obtain ⟨digit, hd, rfl⟩ := Option.map_eq_some'.1 h2
    simp only [positionRecordFor] at h3 ⊢
    cases hev : sv.responseState[i]? with
    | none => simp [hev, (validateResponse_no_key digit km).1]
    | some e =>
      rw [hev] at h3
      simp only [Option.some_bind] at h3
      have hkey : e.key = "" := by
        by_contra hne
        rw [jsOrNullStr, if_neg hne] at h3
        exact Option.some_ne_none _ h3
      simp [hev, hkey, (validateResponse_no_key digit km).2]

/-- C1 amended witness: the spec's three example cases — response
`'j'` (correct), `'f'` (incorrect), and no response at all (reported as
boolean `false`). -/
theorem correctness_for_even_digit_witness :
    (validateResponse '4' (some "j") (some nstKeyMapping) =
      decide ((some "j" : Option String) = some "j")) ∧
    (validateResponse '4' (some "f") (some nstKeyMapping) =
      decide ((some "f" : Option String) = some "j")) ∧
    (validateResponse '4' none (some nstKeyMapping) =
      decide ((none : Option String) = some "j")) ∧
    ({ digit := '4', response := none, responseType := none
       responseStyle := some "standard", isCorrect := false
       timestamp := none, position := 1 } : PositionRecord).isCorrect = false :=
  ⟨correctness_for_even_digit.1 (some "j"),
   correctness_for_even_digit.1 (some "f"),
   correctness_for_even_digit.1 none,
   correctness_for_even_digit.2 svNoResponse (some nstKeyMapping) 0 0
     { trialNumber := 1
       sequence := "4"
       responses := [{ digit := '4', response := none, responseType := none
                       responseStyle := some "standard", isCorrect := false
                       timestamp := none, position := 1 }]
       effortLevel := 1 }
     { digit := '4', response := none, responseType := none
       responseStyle := some "standard", isCorrect := false
       timestamp := none, position := 1 }
     (by decide) (by decide) (by decide)⟩

/-- The response event recorded at exactly the given trial number and
position — the join key the specification prescribes ("joins trials
with responses by (trial, position)"). Spec-side definition, for
comparison with the implementation's lookup. -/
def specRecordedAt (rs : List ResponseEvent) (trialNumber position : Nat) :
    Option ResponseEvent :=
  rs.find? fun e => e.trialNumber == trialNumber && e.position == position

/-- A session with one two-digit trial `"47"` and a response event for
each of its two positions: `'f'` at position 1 and `'j'` at position 2. -/
def svTwoResponses : StateVector :=
  { experimentState := { trials := [{ number := "47", effortLevel := 2 }] }
    responseState :=
      [{ trialNumber := 1, position := 1, key := "f", responseType := "digit"
         responseStyle := "standard", timestamp := 100 },
       { trialNumber := 1, position := 2, key := "j", responseType := "digit"
         responseStyle := "standard", timestamp := 200 }]
    captureState := []
    metadata := "session" }

/-- C9 counterexample: with trial 1 = `"47"` and the response `'j'`
recorded at (trial 1, position 2), `processTrialDetails` reports the
response `'f'` (with timestamp 100) at **both** positions — it indexes
`responseState` by the trial index alone, so position 2 does not get
the event recorded at (trial 1, position 2). -/
theorem join_by_position_fails :
    (((processTrialDetails svTwoResponses (some nstKeyMapping)).flatMap
        fun td => td.responses).map fun r => (r.position, r.response, r.timestamp)) =
      [(1, some "f", some 100), (2, some "f", some 100)] ∧
    (specRecordedAt svTwoResponses.responseState 1 2).map (fun e => e.key) =
      some "j" := by
  constructor <;> decide

/-- C9 (amended): `processTrialDetails` joins responses to trials by the
trial index alone: within one trial every digit position carries the
same `response`, `responseType`, `responseStyle` and `timestamp`
(those of `responseState[index]`), regardless of position. -/
theorem join_is_by_trial_index_only (sv : StateVector)
    (km : Option KeyMapping) (i p q : Nat) (td : TrialDetail)
    (rp rq : PositionRecord)
    (h1 : (processTrialDetails sv km)[i]? = some td)
    (hp : td.responses[p]? = some rp)
    (hq : td.responses[q]? = some rq) :
    rp.response = rq.response ∧ rp.responseType = rq.responseType ∧
    rp.responseStyle = rq.responseStyle ∧ rp.timestamp = rq.timestamp := by
  rw [getElem?_processTrialDetails] at h1
  obtain ⟨trial, htr, rfl⟩ := Option.map_eq_some'.1 h1
  rw [getElem?_responses_trialDetailFor] at hp hq
  obtain ⟨dp, hdp, rfl⟩ := Option.map_eq_some'.1 hp
  obtain ⟨dq, hdq, rfl⟩ := Option.map_eq_some'.1 hq
  exact ⟨rfl, rfl, rfl, rfl⟩

/-- C9 amended witness: in the concrete two-response session, positions
1 and 2 of trial 1 report identical response data. -/
theorem join_is_by_trial_index_only_witness :
    (positionRecordFor svTwoResponses (some nstKeyMapping) 0 0 '4').response =
      (positionRecordFor svTwoResponses (some nstKeyMapping) 0 1 '7').response ∧
    (positionRecordFor svTwoResponses (some nstKeyMapping) 0 0 '4').responseType =
      (positionRecordFor svTwoResponses (some nstKeyMapping) 0 1 '7').responseType ∧
    (positionRecordFor svTwoResponses (some nstKeyMapping) 0 0 '4').responseStyle =
      (positionRecordFor svTwoResponses (some nstKeyMapping) 0 1 '7').responseStyle ∧
    (positionRecordFor svTwoResponses (some nstKeyMapping) 0 0 '4').timestamp =
      (positionRecordFor svTwoResponses (some nstKeyMapping) 0 1 '7').timestamp :=
  join_is_by_trial_index_only svTwoResponses (some nstKeyMapping) 0 0 1
    (trialDetailFor svTwoResponses (some nstKeyMapping) 0
      { number := "47", effortLevel := 2 })
    (positionRecordFor svTwoResponses (some nstKeyMapping) 0 0 '4')
    (positionRecordFor svTwoResponses (some nstKeyMapping) 0 1 '7')
    (by decide) (by decide) (by decide)

/-! ### Capture queue invariants (C4, C5) -/

/-- The inductive invariant of the capture queue: at most one capture
in flight; the `isProcessingCaptures` flag is set exactly while one is;
the in-flight item (if any) is still the queue head (`processNextCapture`
reads `captureQueue[0]` and removes it only on settling); the enqueue
history splits into the settled items followed by the current buffer;
and the store holds exactly the successfully settled items in order. -/
structure QueueInv (s : QueueState) : Prop where
  flightLen : s.inFlight.length ≤ 1
  procIff : s.isProcessingCaptures = true ↔ s.inFlight ≠ []
  flightHead : s.inFlight = s.captureQueue.take s.inFlight.length
  hist : s.enqueued = s.settled.map Prod.fst ++ s.captureQueue
  storeEq : s.store = (s.settled.filter fun p => p.2).map Prod.fst

/-- The initial queue state satisfies the invariant. -/
lemma queueInv_init : QueueInv initQueueState := by
  constructor <;> simp [initQueueState]

/-- Every enabled event preserves the queue invariant. -/
lemma queueInv_step {s s' : QueueState} (e : QueueEvent) (hinv : QueueInv s)
    (hstep : queueStep s e = some s') : QueueInv s' := by
  cases e with
  | enqueue d =>
    obtain rfl : _ = s' := Option.some_inj.1 hstep
    have hlen : s.inFlight.length ≤ s.captureQueue.length := by
      have := congrArg List.length hinv.flightHead
      simp only [List.length_take] at this
      omega
    refine ⟨hinv.flightLen, hinv.procIff, ?_, ?_, hinv.storeEq⟩
    · simpa [List.take_append_of_le_length hlen] using hinv.flightHead
    · simp [hinv.hist]
  | startProcess =>
    rw [queueStep] at hstep
    split at hstep
    · exact absurd hstep (by simp)
    · rename_i hproc
      split at hstep
      · exact absurd hstep (by simp)
      · rename_i d t hq
        obtain rfl : _ = s' := Option.some_inj.1 hstep
        have hfl : s.inFlight = [] := by
          by_contra hne
          exact hproc (hinv.procIff.2 hne)
        refine ⟨?_, ?_, ?_, ?_, ?_⟩ <;> simp [hfl, hq, hinv.hist, hinv.storeEq]
  | settle ok =>
    rw [queueStep] at hstep
    split at hstep
    · exact absurd hstep (by simp)
    · rename_i d rest hfl
      obtain rfl : _ = s' := Option.some_inj.1 hstep
      have hrest : rest = [] := by
        have := hinv.flightLen
        rw [hfl] at this
        simp at this
        exact this
      subst hrest
      have hhead : s.captureQueue.take 1 = [d] := by
        have := hinv.flightHead
        rw [hfl] at this
        simpa using this.symm
      obtain ⟨t, hq⟩ : ∃ t, s.captureQueue = d :: t := by
        cases hcq : s.captureQueue with
        | nil => rw [hcq] at hhead; simp at hhead
        | cons x xs =>
          rw [hcq] at hhead
          simp at hhead
          exact ⟨xs, by rw [hhead]⟩
      refine ⟨by simp, by simp, by simp, ?_, ?_⟩
      · have := hinv.hist
        rw [hq] at this
        simp only [hq, List.drop_one, List.tail_cons, List.map_append]
        rw [this]
        simp
      · cases ok <;> simp [hinv.storeEq, List.filter_append]

/-- The invariant holds in every reachable state. -/
lemma queueInv_run (es : List QueueEvent) :
    ∀ s : QueueState, QueueInv s → QueueInv (runQueue s es) := by
  induction es with
  | nil => intro s h; exact h
  | cons e es ih =>
    intro s h
    rw [runQueue]
    cases hstep : queueStep s e with
    | none => exact ih s h
    | some s' => exact ih s' (queueInv_step e h hstep)

/-- C4: in every reachable state of the capture queue, the uploads that
reached the store form a subsequence of the enqueue history — they occur
in enqueue order even when items in between failed — and settling the
head item (success or failure alike) removes exactly it from the queue
and clears the processing flag, so a failed item is dropped, never
retried, and the drain can continue with the next item. -/
theorem captureQueue_fifo_and_drop (es : List QueueEvent) :
    ((runQueue initQueueState es).store).Sublist
      ((runQueue initQueueState es).enqueued) ∧
    (∀ (ok : Bool) (s' : QueueState),
      queueStep (runQueue initQueueState es) (.settle ok) = some s' →
      s'.captureQueue = (runQueue initQueueState es).captureQueue.drop 1 ∧
      s'.isProcessingCaptures = false ∧
      (ok = false → s'.store = (runQueue initQueueState es).store)) := by
  have hinv := queueInv_run es initQueueState queueInv_init
  constructor
  · rw [hinv.storeEq, hinv.hist]
    exact ((List.filter_sublist _).map Prod.fst).trans
      (List.sublist_append_left _ _)
  · intro ok s' hstep
    rw [queueStep] at hstep
    split at hstep
    · exact absurd hstep (by simp)
    · obtain rfl : _ = s' := Option.some_inj.1 hstep
      exact ⟨rfl, rfl, fun hok => by simp [hok]⟩

/-- A concrete capture context. -/
def demoCapture : CaptureData :=
  { participantId := "M-25-1", trialNumber := 1, digitIndex := 0
    digit := '4', response := "j", responseTime := 500, timestamp := 1000 }

/-- Events leading to a state with one capture in flight. -/
def demoEvents : List QueueEvent :=
  [.enqueue demoCapture, .startProcess]

/-- The state after the in-flight capture of `demoEvents` fails. -/
def demoSettled : QueueState :=
  { captureQueue := [], isProcessingCaptures := false, inFlight := []
    store := [], enqueued := [demoCapture]
    settled := [(demoCapture, false)] }

/-- C4 witness: after enqueue + drain start, a failed settle removes the
head, leaves the store unchanged and clears the processing flag. -/
theorem captureQueue_fifo_and_drop_witness :
    ((runQueue initQueueState demoEvents).store).Sublist
      ((runQueue initQueueState demoEvents).enqueued) ∧
    (demoSettled.captureQueue =
      (runQueue initQueueState demoEvents).captureQueue.drop 1 ∧
     demoSettled.isProcessingCaptures = false ∧
     (false = false → demoSettled.store = (runQueue initQueueState demoEvents).store)) :=
  ⟨(captureQueue_fifo_and_drop demoEvents).1,
   (captureQueue_fifo_and_drop demoEvents).2 false demoSettled (by decide)⟩

/-- C5: in every reachable state of the drain loop at most one
capture-and-upload is in flight, and while one is in flight
(`isProcessingCaptures` set) the effect's guard refuses to start
another — a second upload can never begin before the previous one has
resolved. -/
theorem at_most_one_upload_in_flight (es : List QueueEvent) :
    (runQueue initQueueState es).inFlight.length ≤ 1 ∧
    ((runQueue initQueueState es).isProcessingCaptures = true →
      queueStep (runQueue initQueueState es) .startProcess = none) := by
  have hinv := queueInv_run es initQueueState queueInv_init
  refine ⟨hinv.flightLen, fun hproc => ?_⟩
  rw [queueStep, if_pos hproc]

/-- C5 witness: with one capture being processed, the length bound holds
and a second `processNextCapture` cannot start. -/
theorem at_most_one_upload_in_flight_witness :
    (runQueue initQueueState demoEvents).inFlight.length ≤ 1 ∧
    queueStep (runQueue initQueueState demoEvents) .startProcess = none :=
  ⟨(at_most_one_upload_in_flight demoEvents).1,
   (at_most_one_upload_in_flight demoEvents).2 (by decide)⟩


/-! ### Bounded camera restarts (C7) -/

/-- Restart potential of a monitoring state: a further spontaneous
monitor-triggered restart is only possible while the stream ref is
non-null. -/
def camPot (s : CamMonState) : Nat := if s.streamRef then 1 else 0

/-- How many `ended` firings an event contributes. -/
def CamEvent.endedCount : CamEvent → Nat
  | .trackEnded _ _ => 1
  | .monitorTick _ _ _ => 0

/-- The count `countEnded` adds up the `ended` firings eventwise. -/
lemma countEnded_cons (e : CamEvent) (es : List CamEvent) :
    countEnded (e :: es) = e.endedCount + countEnded es := by
  cases e with
  | trackEnded s1 s2 =>
    simp [countEnded, CamEvent.endedCount, List.filter_cons]
    omega
  | monitorTick alive s1 s2 =>
    simp [countEnded, CamEvent.endedCount, List.filter_cons]

/-- One all-fail monitoring step: the attempt counter plus the restart
potential grows by at most the event's `ended` contribution — a failed
restart consumes the potential (the ref becomes `null`), and only a
track's own `ended` firing can force a restart regardless of it. -/
lemma camStep_allFail_bound (role : CameraRole) (s : CamMonState)
    (e : CamEvent) (he : e.allFail = true) :
    (camStep role s e).attempts + camPot (camStep role s e) ≤
      s.attempts + camPot s + e.endedCount := by
  cases e with
  | trackEnded s1 s2 =>
    obtain ⟨rfl, rfl⟩ : s1 = false ∧ s2 = false := by
      simpa [CamEvent.allFail] using he
    have hstep : camStep role s (.trackEnded false false) =
        { streamRef := false, streamActive := false
          attempts := s.attempts + 1
          errorsDispatched :=
            if role = .main then s.errorsDispatched + 1
            else s.errorsDispatched } := by
      cases role <;> rfl
    rw [hstep]
    simp only [camPot, CamEvent.endedCount, if_neg Bool.false_ne_true]
    omega
  | monitorTick alive s1 s2 =>
    obtain ⟨rfl, rfl⟩ : s1 = false ∧ s2 = false := by
      simpa [CamEvent.allFail] using he
    rw [camStep]
    by_cases href : s.streamRef
    · rw [if_pos href]
      by_cases hact : (!alive && s.streamActive) = true
      · rw [if_pos hact]
        have hrc : restartCamera role false false
            { s with streamActive := false } =
            { streamRef := false, streamActive := false
              attempts := s.attempts + 1
              errorsDispatched :=
                if role = .main then s.errorsDispatched + 1
                else s.errorsDispatched } := by
          cases role <;> rfl
        rw [hrc]
        simp only [camPot, CamEvent.endedCount, if_neg Bool.false_ne_true,
          if_pos href]
        omega
      · rw [if_neg hact]
        split <;> simp [camPot, CamEvent.endedCount]
    · rw [if_neg href]
      simp [CamEvent.endedCount]

/-- Attempt bound along any all-fail trace: total start attempts never
exceed the starting count, plus one for the live stream ref, plus one
per `ended` firing. In particular no restart loop runs forever. -/
lemma runCam_attempts_bound (role : CameraRole) :
    ∀ (es : List CamEvent) (s : CamMonState),
      (∀ e ∈ es, e.allFail = true) →
      (runCam role s es).attempts ≤ s.attempts + camPot s + countEnded es := by
  intro es
  induction es with
  | nil => intro s _; simp [runCam, countEnded]
  | cons e es ih =>
    intro s hfail
    have he : e.allFail = true := hfail e (List.mem_cons_self e es)
    have hes : ∀ e' ∈ es, e'.allFail = true :=
      fun e' h' => hfail e' (List.mem_cons_of_mem e h')
    rw [runCam, countEnded_cons]
    have hstep := camStep_allFail_bound role s e he
    have hrun := ih (camStep role s e) hes
    omega

/-- Under an all-fail environment, one monitoring step moves the attempt
counter and the main role's error-dispatch counter in lockstep, and
never touches the second role's error counter. -/
lemma camStep_attempts_errors (role : CameraRole) (s : CamMonState)
    (e : CamEvent) (he : e.allFail = true) :
    ∃ d, (camStep role s e).attempts = s.attempts + d ∧
      (camStep role s e).errorsDispatched =
        s.errorsDispatched + (if role = .main then d else 0) := by
  cases e with
  | trackEnded s1 s2 =>
    obtain ⟨rfl, rfl⟩ : s1 = false ∧ s2 = false := by
      simpa [CamEvent.allFail] using he
    refine ⟨1, ?_⟩
    cases role with
    | main => exact ⟨rfl, rfl⟩
    | second => exact ⟨rfl, rfl⟩
  | monitorTick alive s1 s2 =>
    obtain ⟨rfl, rfl⟩ : s1 = false ∧ s2 = false := by
      simpa [CamEvent.allFail] using he
    rw [camStep]
    by_cases href : s.streamRef
    · rw [if_pos href]
      by_cases hact : (!alive && s.streamActive) = true
      · rw [if_pos hact]
        refine ⟨1, ?_⟩
        cases role with
        | main => exact ⟨rfl, rfl⟩
        | second => exact ⟨rfl, rfl⟩
      · rw [if_neg hact]
        refine ⟨0, ?_⟩
        split
        · exact ⟨rfl, by split <;> rfl⟩
        · exact ⟨rfl, by split <;> rfl⟩
    · rw [if_neg href]
      exact ⟨0, rfl, by split <;> rfl⟩

/-- Failure-signal accounting for the main role: with every attempt
failing, `setCaptureError` is dispatched once per start attempt. -/
lemma runCam_errors_main :
    ∀ (es : List CamEvent) (s : CamMonState),
      (∀ e ∈ es, e.allFail = true) →
      (runCam .main s es).errorsDispatched + s.attempts =
        s.errorsDispatched + (runCam .main s es).attempts := by
  intro es
  induction es with
  | nil => intro s _; simp [runCam]
  | cons e es ih =>
    intro s hfail
    have he : e.allFail = true := hfail e (List.mem_cons_self e es)
    have hes : ∀ e' ∈ es, e'.allFail = true :=
      fun e' h' => hfail e' (List.mem_cons_of_mem e h')
    rw [runCam]
    obtain ⟨d, hd1, hd2⟩ := camStep_attempts_errors .main s e he
    have hih := ih (camStep .main s e) hes
    rw [hd1, hd2] at hih
    simp only [reduceIte] at hih
    omega

/-- Failure-signal accounting for the second role: no matter how many
restart attempts fail, no `setCaptureError` is ever dispatched
(`startSecondCamera` only logs its error). -/
lemma runCam_errors_second :
    ∀ (es : List CamEvent) (s : CamMonState),
      (∀ e ∈ es, e.allFail = true) →
      (runCam .second s es).errorsDispatched = s.errorsDispatched := by
  intro es
  induction es with
  | nil => intro s _; simp [runCam]
  | cons e es ih =>
    intro s hfail
    have he : e.allFail = true := hfail e (List.mem_cons_self e es)
    have hes : ∀ e' ∈ es, e'.allFail = true :=
      fun e' h' => hfail e' (List.mem_cons_of_mem e h')
    rw [runCam]
    obtain ⟨d, _, hd2⟩ := camStep_attempts_errors .second s e he
    rw [ih (camStep .second s e) hes, hd2]
    simp

/-- C7 counterexample: the **second** camera's track ends, its single
restart attempt fails and the stream ref stays `null` (persistent
failure), yet no `setCaptureError` signal is ever dispatched —
`startSecondCamera`'s catch only logs, so for this stream no
persistent-failure signal reaches the caller. -/
theorem second_camera_failure_unsignalled :
    (runCam .second initCamMonState [.trackEnded false false]).attempts = 1 ∧
    (runCam .second initCamMonState [.trackEnded false false]).streamRef = false ∧
    (runCam .second initCamMonState [.trackEnded false false]).errorsDispatched = 0 := by
  decide

/-- C7 (amended): for a live stream whose track ends while its restarts
keep failing, at most 2 automatic start attempts ever occur (however
long the trace runs — no restart loop runs indefinitely); each failed
attempt for the main camera dispatches a `setCaptureError` signal, while
second-camera restart failures are only logged and never surface a
signal. -/
theorem restart_attempts_bounded (role : CameraRole) (es : List CamEvent)
    (hfail : ∀ e ∈ es, e.allFail = true) (hended : countEnded es ≤ 1) :
    (runCam role initCamMonState es).attempts ≤ 2 ∧
    (runCam .main initCamMonState es).errorsDispatched =
      (runCam .main initCamMonState es).attempts ∧
    (runCam .second initCamMonState es).errorsDispatched = 0 := by
  refine ⟨?_, ?_, ?_⟩
  · have := runCam_attempts_bound role es initCamMonState hfail
    have hpot : initCamMonState.attempts + camPot initCamMonState = 1 := rfl
    omega
  · have := runCam_errors_main es initCamMonState hfail
    have h0 : initCamMonState.attempts = 0 := rfl
    have h1 : initCamMonState.errorsDispatched = 0 := rfl
    omega
  · have := runCam_errors_second es initCamMonState hfail
    have h1 : initCamMonState.errorsDispatched = 0 := rfl
    omega

/-- C7 amended witness: the concrete one-`ended` all-fail trace — one
attempt (≤ 2), one main-camera error signal, none for the second. -/
theorem restart_attempts_bounded_witness :
    (runCam .main initCamMonState [.trackEnded false false]).attempts ≤ 2 ∧
    (runCam .main initCamMonState [.trackEnded false false]).errorsDispatched =
      (runCam .main initCamMonState [.trackEnded false false]).attempts ∧
    (runCam .second initCamMonState [.trackEnded false false]).errorsDispatched = 0 :=
  restart_attempts_bounded .main [.trackEnded false false] (by decide) (by decide)

/-! ### Checksum reproducibility (C8) -/

/-- A response event appended to `svNoResponse`'s session: the
participant answers `'j'` at (trial 1, position 1). -/
def appendedResponse : ResponseEvent :=
  { trialNumber := 1, position := 1, key := "j", responseType := "digit"
    responseStyle := "standard", timestamp := 1700000000123 }

/-- The state `svNoResponse` after the one response event is appended. -/
def svWithResponse : StateVector :=
  { svNoResponse with responseState := [appendedResponse] }

set_option maxRecDepth 1000000
set_option maxHeartbeats 2000000

/-- C8: `generateChecksum` is a pure function of the state vector — the
wall clock read during `getFullResults` (`Date.now()` inside
`calculateSessionMetrics`) never enters `validationHash`, so recomputing
at any later moment over the unchanged state yields the identical
checksum; and appending one response event to the concrete session
changes the checksum. -/
theorem checksum_reproducible_and_response_sensitive :
    (∀ (now1 now2 : Nat) (session : Session) (sv : StateVector),
      (getFullResults now1 session sv).validationHash =
        (getFullResults now2 session sv).validationHash) ∧
    generateChecksum svNoResponse ≠ generateChecksum svWithResponse :=
  ⟨fun _ _ _ _ => rfl, by decide⟩

end NSTPlus
